import Mathlib

/-!
Shallow embedding of `src/main.py` of the pc-watchdog-pulser repository.

The program is a host-side watchdog pinger: a `WatchdogUsbDevice` session
object wraps USB control transfers (a HID-class byte stream and a vendor
command channel), and a module-level supervisor loop discovers the device,
configures it, and then polls: drain text, emit 5-minute timestamp markers,
and send keep-alive pings.

Modelling conventions:
- USB control transfers, sleeps and prints are recorded as an explicit
  `Effect` trace; each operation returns `Except PyError α × List Effect`.
- Python exceptions become `PyError` (`usbError` for `usb.core.USBError`,
  `assertionError` for a failed `assert`).
- Sleep durations are in milliseconds (`time.sleep(0.01)` becomes `sleep 10`).
- Wall-clock times in the pulse logic are modelled as integer seconds.
- The dynamic Python comparison `now_minutes != last_minutes` (int vs str)
  is modelled by the sum type `PyVal`.
-/

namespace PcWatchdogPulser

/-! ## Constants (from usb.util and the top of main.py) -/

def CTRL_OUT : Nat := 0x00

def CTRL_IN : Nat := 0x80

def CTRL_TYPE_CLASS : Nat := 1 <<< 5

def CTRL_TYPE_VENDOR : Nat := 2 <<< 5

def CTRL_RECIPIENT_DEVICE : Nat := 0

/-- usb.util.build_request_type: recipient | type | direction. -/
def build_request_type (direction ty recipient : Nat) : Nat :=
  recipient ||| ty ||| direction

def REQUEST_TYPE_SEND_VENDOR : Nat :=
  build_request_type CTRL_OUT CTRL_TYPE_VENDOR CTRL_RECIPIENT_DEVICE

def REQUEST_TYPE_SEND_CLASS : Nat :=
  build_request_type CTRL_OUT CTRL_TYPE_CLASS CTRL_RECIPIENT_DEVICE

def REQUEST_TYPE_RECEIVE_CLASS : Nat :=
  build_request_type CTRL_IN CTRL_TYPE_CLASS CTRL_RECIPIENT_DEVICE

def USBRQ_HID_GET_REPORT : Nat := 0x01

def USBRQ_HID_SET_REPORT : Nat := 0x09

def USB_HID_REPORT_TYPE_FEATURE : Nat := 0x03

def USBRQ_PING : Nat := 1

def USBRQ_SET_CONFVAR : Nat := 2

def CONFVAR_BRIGHTNESS : Nat := 1

def CONFVAR_GRACE_PERIOD : Nat := 2

def PULSE_FREQUENCY_SECONDS : Nat := 10

def PULSE_TIMEOUT_SECONDS : Nat := 15

def DEVICE_LED_BRIGHTNESS : Nat := 1

/-! ## Data model -/

/-- The `data_or_wLength` argument of `ctrl_transfer`: either an outbound
payload (a list of bytes) or an inbound requested length. -/
inductive CtrlData where
  | payload (bytes : List Nat)
  | wantLength (n : Nat)
deriving DecidableEq, Repr

/-- One USB control transfer, fully described by its fields. -/
structure Transfer where
  bmRequestType : Nat
  bRequest : Nat
  wValue : Nat
  wIndex : Nat
  data : CtrlData
deriving DecidableEq, Repr

/-- Observable effects of the program: control transfers, sleeps
(milliseconds) and prints to standard output. -/
inductive Effect where
  | transfer (t : Transfer)
  | sleep (ms : Nat)
  | print (s : String)
deriving DecidableEq, Repr

/-- Python exceptions relevant to this program. `usbError` models
`usb.core.USBError`; `assertionError` models a failed `assert` statement
(the spec calls the out-of-range case `OutOfRangeError`). -/
inductive PyError where
  | usbError (msg : String)
  | assertionError (msg : String)
deriving DecidableEq, Repr

/-- An ownership handle to a located USB device (opaque identity). -/
structure DeviceHandle where
  id : Nat
deriving DecidableEq, Repr

/-- The session object: `_device` is `None` or a bound handle
(`WatchdogUsbDevice._device` in the source). -/
structure WatchdogUsbDevice where
  _device : Option DeviceHandle
deriving DecidableEq, Repr

/-- The handles currently held by a session (at most the one in `_device`). -/
def liveHandles (s : WatchdogUsbDevice) : List DeviceHandle :=
  s._device.toList

/-! ## WatchdogUsbDevice operations -/

/-- The `device` property: raises `usb.core.USBError("Device not found")`
when `_device` is `None`, else returns it. -/
def deviceProp (s : WatchdogUsbDevice) : Except PyError DeviceHandle :=
  match s._device with
  | none => .error (.usbError "Device not found")
  | some d => .ok d

/-- `find_device`: re-binds `_device` to the result of `usb.core.find`
(modelled as the parameter `found`; `find_all=False` yields at most one
device or `None`). -/
def find_device (s : WatchdogUsbDevice) (found : Option DeviceHandle) :
    WatchdogUsbDevice :=
  { s with _device := found }

/-- `check_device`: `_ = self.device`, i.e. evaluate the `device` property
for its exception. -/
def check_device (s : WatchdogUsbDevice) : Except PyError Unit :=
  (deviceProp s).map fun _ => ()

/-- `__str__`: `f'{self._device!s}'`; a `None` handle prints as "None". -/
def pyStr (s : WatchdogUsbDevice) : String :=
  match s._device with
  | none => "None"
  | some d => "Device " ++ toString d.id

/-- `write_byte`: `value = data & 0xFF; assert value == data`, then one
host-to-device class control transfer `SET_REPORT` with
`wValue = (FEATURE << 8) | 0`, `wIndex = value`, empty payload, followed by
`time.sleep(0.01)`. Python `&` on possibly-negative ints is `Int.emod`. -/
def write_byte (s : WatchdogUsbDevice) (data : Int) :
    Except PyError Unit × List Effect :=
  let value := data % 256
  if value = data then
    match s._device with
    | none => (.error (.usbError "Device not found"), [])
    | some _ =>
      (.ok (),
        [.transfer
          { bmRequestType := REQUEST_TYPE_SEND_CLASS
            bRequest := USBRQ_HID_SET_REPORT
            wValue := (USB_HID_REPORT_TYPE_FEATURE <<< 8) ||| 0
            wIndex := value.toNat
            data := .payload [] },
          .sleep 10])
  else
    (.error (.assertionError "Data out of range"), [])

/-- `write`: `for c in data: self.write_byte(ord(c))` — sequential, stops at
the first failing byte. -/
def write (s : WatchdogUsbDevice) (data : List Char) :
    Except PyError Unit × List Effect :=
  match data with
  | [] => (.ok (), [])
  | c :: cs =>
    match write_byte s (c.toNat : Int) with
    | (.ok _, es) => ((write s cs).1, es ++ (write s cs).2)
    | (.error e, es) => (.error e, es)

/-- The control transfer issued by each iteration of `read`: device-to-host
class `GET_REPORT` requesting 1 byte (`wValue`/`wIndex` default to 0). -/
def readTransfer : Transfer :=
  { bmRequestType := REQUEST_TYPE_RECEIVE_CLASS
    bRequest := USBRQ_HID_GET_REPORT
    wValue := 0
    wIndex := 0
    data := .wantLength 1 }

/-- The loop body of `read`: at most `fuel` iterations; `resp k` is the byte
list the device returns to the k-th read transfer; an empty result breaks
out, a byte is appended as a character and followed by `time.sleep(0.01)`. -/
def readAux (resp : Nat → List Nat) (k fuel : Nat) : String × List Effect :=
  match fuel with
  | 0 => ("", [])
  | fuel + 1 =>
    match resp k with
    | [] => ("", [.transfer readTransfer])
    | b :: _ =>
      ((Char.ofNat b).toString ++ (readAux resp (k + 1) fuel).1,
        .transfer readTransfer :: .sleep 10 :: (readAux resp (k + 1) fuel).2)

/-- `read` (spec name `readAvailable`): up to `count` (default 50) read
transfers, stopping at the first empty result; raises "Device not found"
before any transfer when no handle is bound (the `device` property is
dereferenced inside the loop body, so `count = 0` touches nothing). -/
def read (s : WatchdogUsbDevice) (resp : Nat → List Nat) (count : Nat) :
    Except PyError String × List Effect :=
  match count with
  | 0 => (.ok "", [])
  | _ + 1 =>
    match s._device with
    | none => (.error (.usbError "Device not found"), [])
    | some _ => (.ok (readAux resp 0 count).1, (readAux resp 0 count).2)

/-- `send_vendor_command`: one host-to-device vendor control transfer with
request code `cmd`, `wValue = value`, `wIndex = index`, empty payload. -/
def send_vendor_command (s : WatchdogUsbDevice) (cmd value index : Nat) :
    Except PyError Unit × List Effect :=
  match s._device with
  | none => (.error (.usbError "Device not found"), [])
  | some _ =>
    (.ok (),
      [.transfer
        { bmRequestType := REQUEST_TYPE_SEND_VENDOR
          bRequest := cmd
          wValue := value
          wIndex := index
          data := .payload [] }])

/-- `set_confvar`: `send_vendor_command(cmd=SET_CONFVAR, index=confvar, value=value)`. -/
def set_confvar (s : WatchdogUsbDevice) (confvar value : Nat) :
    Except PyError Unit × List Effect :=
  send_vendor_command s USBRQ_SET_CONFVAR value confvar

/-- `set_led_brightness`: `set_confvar(CONFVAR_BRIGHTNESS, value)`. -/
def set_led_brightness (s : WatchdogUsbDevice) (value : Nat) :
    Except PyError Unit × List Effect :=
  set_confvar s CONFVAR_BRIGHTNESS value

/-- `set_grace_period`: `set_confvar(CONFVAR_GRACE_PERIOD, value)`. -/
def set_grace_period (s : WatchdogUsbDevice) (value : Nat) :
    Except PyError Unit × List Effect :=
  set_confvar s CONFVAR_GRACE_PERIOD value

/-! ## Supervisor loop (module level, lines 126-170) -/

/-- The Configuring phase, lines 134-136: `device.check_device()` then
`device.set_led_brightness(DEVICE_LED_BRIGHTNESS)`. The grace-period call
`device.set_confvar(CONFVAR_GRACE_PERIOD, 30)` on line 136 is commented out
in the source and is therefore absent from the translation. -/
def configuringPhase (s : WatchdogUsbDevice) :
    Except PyError Unit × List Effect :=
  match check_device s with
  | .error e => (.error e, [])
  | .ok _ => set_led_brightness s DEVICE_LED_BRIGHTNESS

/-- The message `print(f'Error: {e}')` produces for a `PyError`. -/
def errorLine (e : PyError) : String :=
  match e with
  | .usbError msg => "Error: " ++ msg
  | .assertionError msg => "Error: " ++ msg

/-- One outer-loop iteration, lines 130-160, in the case `usb.core.find`
returns no device: `find_device` leaves `_device = None`, the device is
printed, then inside the inner `try` the `check_device` call raises
`USBError("Device not found")`, which the `except usb.core.USBError` handler
prints before `time.sleep(5)`; the polling loop is never entered. -/
def outerIterOnAbsent : List Effect :=
  let s : WatchdogUsbDevice := find_device { _device := some { id := 0 } } none
  .print ("device=" ++ pyStr s) ::
    (match configuringPhase s with
     | (.error e, es) => es ++ [.print (errorLine e), .sleep 5000]
     | (.ok _, es) => es)

/-- A Python value that may be the string `''` or an int: the type of
`last_minutes`, initialised to `''` and later assigned `now_minutes`. -/
inductive PyVal where
  | str (s : String)
  | int (n : Nat)
deriving DecidableEq, Repr

/-- Line 139: `last_minutes = ''`. -/
def initLastMinutes : PyVal := .str ""

/-- Line 147: `now_minutes = now_struct.tm_min // 5 * 5`. -/
def bucket (minute : Nat) : Nat := minute / 5 * 5

/-- Lines 147-151 of the polling loop: compute the 5-minute bucket of the
current local minute, and if it differs from `last_minutes` (Python `!=`,
which is `True` between an int and a string) emit a timestamp marker and
update `last_minutes`. Returns (marker emitted?, new `last_minutes`). -/
def markerStep (last : PyVal) (minute : Nat) : Bool × PyVal :=
  let nowMinutes : PyVal := .int (bucket minute)
  if nowMinutes ≠ last then (true, nowMinutes) else (false, last)

/-- Iterates `markerStep` over a sequence of sampled local minutes,
returning for each sample whether a marker was emitted and its bucket. -/
def markerSeq (last : PyVal) : List Nat → List (Bool × Nat)
  | [] => []
  | m :: ms =>
    let (e, l') := markerStep last m
    (e, bucket m) :: markerSeq l' ms

/-- Lines 153-155 of the polling loop: if `now - last_pulse >
PULSE_FREQUENCY_SECONDS` then set `last_pulse = now` and send
`send_vendor_command(USBRQ_PING, PULSE_TIMEOUT_SECONDS)`. Times are
modelled as integer seconds. Returns (new `last_pulse`, effects, result). -/
def pulseStep (s : WatchdogUsbDevice) (lastPulse now : Int) :
    Int × List Effect × Except PyError Unit :=
  if now - lastPulse > (PULSE_FREQUENCY_SECONDS : Int) then
    (now, (send_vendor_command s USBRQ_PING PULSE_TIMEOUT_SECONDS 0).2,
      (send_vendor_command s USBRQ_PING PULSE_TIMEOUT_SECONDS 0).1)
  else
    (lastPulse, [], .ok ())

/-- The shutdown path, lines 161-170: the `KeyboardInterrupt` handler tries
`send_vendor_command(USBRQ_PING, 0)` under a bare `except: pass`, then the
`finally` block unconditionally runs `time.sleep(1)` followed by
`device.read()` and, when non-empty, `print(value)`. The `finally` block
has no exception handler of its own, so an error raised by this final
`read` propagates out of the program. -/
def shutdownPath (s : WatchdogUsbDevice) (resp : Nat → List Nat) :
    Except PyError Unit × List Effect :=
  let esPing := (send_vendor_command s USBRQ_PING 0 0).2
  match read s resp 50 with
  | (.ok v, esR) =>
    (.ok (),
      esPing ++ [.sleep 1000] ++ esR ++
        (if v.length ≠ 0 then [.print v] else []))
  | (.error e, esR) =>
    (.error e, esPing ++ [.sleep 1000] ++ esR)

/-! ## Helper predicates for counting effects -/

/-- Whether an effect is a class `SET_REPORT` write transfer (the transfer
issued by `write_byte`). -/
def isClassWrite (e : Effect) : Bool :=
  match e with
  | .transfer t =>
    t.bmRequestType == REQUEST_TYPE_SEND_CLASS &&
      t.bRequest == USBRQ_HID_SET_REPORT
  | _ => false

/-- Whether an effect is a class `GET_REPORT` read transfer (the transfer
issued by each iteration of `read`). -/
def isClassRead (e : Effect) : Bool :=
  match e with
  | .transfer t => t.bmRequestType == REQUEST_TYPE_RECEIVE_CLASS
  | _ => false

/-- Whether an effect is the 10 ms inter-byte delay. -/
def isSleep10 (e : Effect) : Bool :=
  match e with
  | .sleep ms => ms == 10
  | _ => false

/-- Whether an effect is a vendor transfer with the given request code. -/
def isVendor (cmd : Nat) (e : Effect) : Bool :=
  match e with
  | .transfer t => t.bmRequestType == REQUEST_TYPE_SEND_VENDOR && t.bRequest == cmd
  | _ => false

/-- Whether an effect is a `SET_CONFVAR` vendor transfer addressing the
given configuration-variable index. -/
def isSetConfvar (confvar : Nat) (e : Effect) : Bool :=
  match e with
  | .transfer t =>
    t.bmRequestType == REQUEST_TYPE_SEND_VENDOR &&
      t.bRequest == USBRQ_SET_CONFVAR && t.wIndex == confvar
  | _ => false

/-- The two effects `write_byte` produces for an in-range byte `b`: the
class `SET_REPORT` transfer carrying `b` in `wIndex`, then the 10 ms sleep. -/
def writeByteEffects (b : Nat) : List Effect :=
  [.transfer
    { bmRequestType := REQUEST_TYPE_SEND_CLASS
      bRequest := USBRQ_HID_SET_REPORT
      wValue := (USB_HID_REPORT_TYPE_FEATURE <<< 8) ||| 0
      wIndex := b
      data := .payload [] },
    .sleep 10]

/-- A device response sequence that answers the first read with byte 97
(`'a'`), the second with byte 98 (`'b'`), and every later read with an
empty result. -/
def respAB : Nat → List Nat :=
  fun k => if k = 0 then [97] else if k = 1 then [98] else []

/-! ## Theorems -/

/-- C1 counterexample: with a bound device, the Configuring phase succeeds
but issues zero `SET_CONFVAR` transfers for the grace period (index 2) —
the grace-period call is commented out in the source, so the claim that
both configuration variables are set at startup is false. -/
theorem C1_counterexample :
    (configuringPhase { _device := some { id := 0 } }).1 = .ok () ∧
    ((configuringPhase { _device := some { id := 0 } }).2.countP
      (isSetConfvar CONFVAR_GRACE_PERIOD)) = 0 := by
  constructor
  · rfl
  · rfl

/-- C1 (amended): at startup the Configuring phase issues exactly one
vendor transfer — the `SET_CONFVAR` for LED brightness (index 1, value 1) —
and no grace-period transfer, before the polling loop is entered. -/
theorem C1_configuring_sets_only_brightness (d : DeviceHandle) :
    configuringPhase { _device := some d } =
      (.ok (),
        [.transfer
          { bmRequestType := REQUEST_TYPE_SEND_VENDOR
            bRequest := USBRQ_SET_CONFVAR
            wValue := DEVICE_LED_BRIGHTNESS
            wIndex := CONFVAR_BRIGHTNESS
            data := .payload [] }]) := rfl

/-- C2 counterexample: an outer-loop iteration in which discovery finds no
device does contain a 5-second sleep before the next discovery attempt,
refuting the claim that discovery is retried immediately on absence. -/
theorem C2_counterexample : Effect.sleep 5000 ∈ outerIterOnAbsent := by
  decide

/-- C2 (amended): when discovery finds no device, `check_device` raises the
"Device not found" USB error, which is caught by the same handler as I/O
errors: the iteration prints the device (`None`), prints the error and
sleeps 5 seconds before the next discovery attempt — the same 5-second
backoff as for I/O errors, not an immediate retry. -/
theorem C2_absent_backoff :
    outerIterOnAbsent =
      [.print "device=None", .print "Error: Device not found", .sleep 5000] := by
  decide

/-- C10: on the very first polling iteration a timestamp marker is always
emitted, whatever the current minute, because `last_minutes` is initialised
to the string `''`, which Python `!=` distinguishes from every int bucket. -/
theorem C10_first_iteration_always_emits (minute : Nat) :
    (markerStep initLastMinutes minute).1 = true := by
  simp [markerStep, initLastMinutes]

/-- C4: a marker is emitted exactly when the current 5-minute bucket
(`minute div 5 * 5`) differs from the previously recorded `last_minutes`
value, and `last_minutes` is updated exactly on emission; in the concrete
scenario of samples at local times 10:02, 10:04, 10:06 with the previously
recorded bucket 10:00, the bucket sequence is 10:00, 10:00, 10:05 (minutes
0, 0, 5) and a marker is emitted only at the third sample. -/
theorem C4_marker_on_bucket_change :
    (∀ (last : PyVal) (minute : Nat),
      ((markerStep last minute).1 = true ↔ PyVal.int (bucket minute) ≠ last) ∧
      (markerStep last minute).2 =
        (if PyVal.int (bucket minute) ≠ last then PyVal.int (bucket minute)
         else last)) ∧
    markerSeq (.int 0) [2, 4, 6] = [(false, 0), (false, 0), (true, 5)] := by
  constructor
  · intro last minute
    by_cases h : PyVal.int (bucket minute) = last
    · constructor
      · simp [markerStep, h]
      · simp [markerStep, h]
    · constructor
      · simp [markerStep, h]
      · simp [markerStep, h]
  · decide

/-- C5: in each polling iteration the keep-alive pulse — the `PING` vendor
command with value `PULSE_TIMEOUT_SECONDS = 15` — is sent when and only
when `now - last_pulse > 10` seconds, and on invocation `last_pulse`
becomes the invoking `now` (else it is unchanged); consequently a pulse at
time 11 (with `last_pulse = 0`) suppresses the pulse at time 20, since the
comparison uses the new value 11, not the original 0. -/
theorem C5_pulse_timing (d : DeviceHandle) (lastPulse now : Int) :
    pulseStep { _device := some d } lastPulse now =
      ((if now - lastPulse > (10 : Int) then now else lastPulse),
       (if now - lastPulse > (10 : Int) then
          [.transfer
            { bmRequestType := REQUEST_TYPE_SEND_VENDOR
              bRequest := USBRQ_PING
              wValue := 15
              wIndex := 0
              data := .payload [] }]
        else []),
       .ok ()) ∧
    (pulseStep { _device := some d } 0 11).1 = 11 ∧
    (pulseStep { _device := some d }
      (pulseStep { _device := some d } 0 11).1 20).2.1 = [] := by
  refine ⟨?_, ?_, ?_⟩
  · unfold pulseStep send_vendor_command
    have hc : ((PULSE_FREQUENCY_SECONDS : Nat) : Int) = 10 := by decide
    rw [hc]
    split <;> rename_i h <;> simp [h, PULSE_TIMEOUT_SECONDS]
  · rfl
  · rfl

/-- C3 counterexample: at shutdown with no bound device (a plausible state,
since the device may have been unplugged), the single `pulse(0)` attempt
fails and is ignored and the 1-second sleep happens, but the final
drain-and-print is not best-effort: the `read` in the `finally` block
raises "Device not found" and no handler catches it, so the failure is not
ignored — refuting the claim that the final drain's failures are ignored. -/
theorem C3_counterexample :
    shutdownPath { _device := none } (fun _ => []) =
      (.error (.usbError "Device not found"), [.sleep 1000]) := rfl

/-- C3 (amended): upon the interruption signal exactly one `pulse(0)`
attempt occurs (one `PING` vendor transfer when a device is bound, none
otherwise) with any error of that attempt ignored; then unconditionally a
1-second sleep and one final `read` whose drained non-empty text is
printed. The final read is not error-protected: the overall outcome equals
the final read's outcome, so a read failure propagates out of the program
instead of being ignored. -/
theorem C3_shutdown (dv : Option DeviceHandle) (resp : Nat → List Nat) :
    ((send_vendor_command { _device := dv } USBRQ_PING 0 0).2.countP
      (isVendor USBRQ_PING) = if dv.isSome then 1 else 0) ∧
    (shutdownPath { _device := dv } resp).2 =
      (send_vendor_command { _device := dv } USBRQ_PING 0 0).2 ++
        [.sleep 1000] ++ (read { _device := dv } resp 50).2 ++
        (match (read { _device := dv } resp 50).1 with
         | .ok v => if v.length ≠ 0 then [.print v] else []
         | .error _ => []) ∧
    (shutdownPath { _device := dv } resp).1 =
      (read { _device := dv } resp 50).1.map fun _ => () := by
  refine ⟨?_, ?_, ?_⟩
  · cases dv with
    | none => rfl
    | some d => rfl
  · unfold shutdownPath
    rcases h : read { _device := dv } resp 50 with ⟨r, esR⟩
    cases r <;> simp [h]
  · unfold shutdownPath
    rcases h : read { _device := dv } resp 50 with ⟨r, esR⟩
    cases r <;> simp [h, Except.map]

/-- C6: for every integer b in [0,255], `write_byte` issues exactly one
host-to-device class `SET_REPORT` transfer with value field
`(0x03 << 8) | 0`, index field b and empty payload (followed by the 10 ms
pacing sleep); for every integer b outside [0,255] it fails with the
out-of-range assertion and issues no transfer. -/
theorem C6_write_byte (d : DeviceHandle) (b : Int) :
    write_byte { _device := some d } b =
      (if 0 ≤ b ∧ b < 256 then (.ok (), writeByteEffects b.toNat)
       else (.error (.assertionError "Data out of range"), [])) := by
  by_cases h : 0 ≤ b ∧ b < 256
  · have he : b % 256 = b := Int.emod_eq_of_lt h.1 h.2
    simp [write_byte, he, h, writeByteEffects]
  · have he : ¬ b % 256 = b := by
      intro heq
      exact h ⟨heq ▸ Int.emod_nonneg b (by norm_num),
               heq ▸ Int.emod_lt_of_pos b (by norm_num)⟩
    simp [write_byte, he, h]

/-- C8: at most one device handle is live at a time, and whenever the
session holds no bound handle, `check_device` and every transfer-issuing
operation (`write_byte` on any in-range byte, `write` on any non-empty
in-range string, `read` with a positive count, `send_vendor_command` and
all its wrappers) fails with the "Device not found" USB error before
issuing any control transfer (the effect trace is empty). -/
theorem C8_unbound_fails (s : WatchdogUsbDevice) :
    ((liveHandles s).length ≤ 1) ∧
    (check_device { _device := none } = .error (.usbError "Device not found")) ∧
    (∀ b : Int, 0 ≤ b → b < 256 →
      write_byte { _device := none } b =
        (.error (.usbError "Device not found"), [])) ∧
    (∀ (c : Char) (cs : List Char), c.toNat < 256 →
      write { _device := none } (c :: cs) =
        (.error (.usbError "Device not found"), [])) ∧
    (∀ (resp : Nat → List Nat) (N : Nat), 0 < N →
      read { _device := none } resp N =
        (.error (.usbError "Device not found"), [])) ∧
    (∀ cmd value index : Nat,
      send_vendor_command { _device := none } cmd value index =
        (.error (.usbError "Device not found"), [])) ∧
    (∀ confvar value : Nat,
      set_confvar { _device := none } confvar value =
        (.error (.usbError "Device not found"), [])) ∧
    (∀ value : Nat,
      set_led_brightness { _device := none } value =
        (.error (.usbError "Device not found"), [])) ∧
    (∀ value : Nat,
      set_grace_period { _device := none } value =
        (.error (.usbError "Device not found"), [])) := by
  refine ⟨?_, rfl, ?_, ?_, ?_, fun _ _ _ => rfl, fun _ _ => rfl,
    fun _ => rfl, fun _ => rfl⟩
  · cases s with
    | mk dv => cases dv <;> simp [liveHandles]
  · intro b h0 h1
    have he : b % 256 = b := Int.emod_eq_of_lt h0 h1
    simp [write_byte, he]
  · intro c cs hc
    have he : ((c.toNat : Int)) % 256 = (c.toNat : Int) :=
      Int.emod_eq_of_lt (Int.ofNat_nonneg _) (by exact_mod_cast hc)
    simp [write, write_byte, he]
  · intro resp N hN
    cases N with
    | zero => exact absurd hN (by decide)
    | succ n => rfl

/-- C8 witness: the unbound-session theorem instantiated at byte 5, the
string "a", and a 50-read drain. -/
theorem C8_unbound_fails_witness :
    write_byte { _device := none } 5 =
      (.error (.usbError "Device not found"), []) ∧
    write { _device := none } ['a'] =
      (.error (.usbError "Device not found"), []) ∧
    read { _device := none } (fun _ => []) 50 =
      (.error (.usbError "Device not found"), []) :=
  ⟨(C8_unbound_fails { _device := none }).2.2.1 5 (by decide) (by decide),
   (C8_unbound_fails { _device := none }).2.2.2.1 'a' [] (by decide),
   (C8_unbound_fails { _device := none }).2.2.2.2.1 (fun _ => []) 50
     (by decide)⟩

/-- Helper: on a bound session, `write_byte` with an in-range byte succeeds
and issues exactly the `SET_REPORT` transfer for that byte plus the 10 ms
sleep. -/
theorem write_byte_ok (d : DeviceHandle) (b : Nat) (hb : b < 256) :
    write_byte { _device := some d } (b : Int) = (.ok (), writeByteEffects b) := by
  have he : ((b : Nat) : Int) % 256 = (b : Int) :=
    Int.emod_eq_of_lt (Int.ofNat_nonneg _) (by exact_mod_cast hb)
  simp [write_byte, he, writeByteEffects]

/-- C9: on a bound session, `write` issues exactly one `write_byte` per
character in the original order — the effect trace is the in-order
concatenation of each character's `write_byte` effects — and when some
character's code point is ≥ 256 the whole operation fails with the
out-of-range assertion at that character, after having written all earlier
characters and without attempting any later one (no rollback). -/
theorem C9_write_string (d : DeviceHandle) :
    (∀ cs : List Char, (∀ c ∈ cs, c.toNat < 256) →
      write { _device := some d } cs =
        (.ok (), cs.flatMap fun c => writeByteEffects c.toNat)) ∧
    (∀ (pre : List Char) (c : Char) (post : List Char),
      (∀ x ∈ pre, x.toNat < 256) → 256 ≤ c.toNat →
      write { _device := some d } (pre ++ c :: post) =
        (.error (.assertionError "Data out of range"),
          pre.flatMap fun x => writeByteEffects x.toNat)) := by
  constructor
  · intro cs
    induction cs with
    | nil => intro _; rfl
    | cons c cs ih =>
      intro h
      have hc := h c (List.mem_cons_self _ _)
      have hw := write_byte_ok d c.toNat hc
      have hrest := ih fun x hx => h x (List.mem_cons_of_mem _ hx)
      simp [write, hw, hrest]
  · intro pre c post hpre hc
    induction pre with
    | nil =>
      have hbad : ¬ ((c.toNat : Int) % 256 = (c.toNat : Int)) := by
        intro heq
        have h1 : (c.toNat : Int) % 256 < 256 := Int.emod_lt_of_pos _ (by norm_num)
        rw [heq] at h1
        have h2 : c.toNat < 256 := by exact_mod_cast h1
        omega
      simp [write, write_byte, hbad]
    | cons x pre ih =>
      have hx := hpre x (List.mem_cons_self _ _)
      have hw := write_byte_ok d x.toNat hx
      have hrest := ih fun y hy => hpre y (List.mem_cons_of_mem _ hy)
      simp [write, hw, hrest]

/-- C9 witness: writing "a", then the character U+0100 (code point 256),
then "b": the byte for "a" is written, the operation fails at U+0100, and
"b" is never attempted. -/
theorem C9_write_string_witness :
    write { _device := some { id := 0 } } ['a', Char.ofNat 256, 'b'] =
      (.error (.assertionError "Data out of range"), writeByteEffects 97) := by
  have h := (C9_write_string { id := 0 }).2 ['a'] (Char.ofNat 256) ['b']
    (by decide) (by decide)
  simpa using h

/-- Helper: the read loop issues at most `fuel` read transfers. -/
theorem readAux_reads_le (resp : Nat → List Nat) :
    ∀ (fuel k : Nat), (readAux resp k fuel).2.countP isClassRead ≤ fuel := by
  intro fuel
  induction fuel with
  | zero => intro k; simp [readAux]
  | succ n ih =>
    intro k
    have hT : isClassRead (.transfer readTransfer) = true := rfl
    have hS : isClassRead (.sleep 10) = false := rfl
    cases h : resp k with
    | nil => simp [readAux, h, List.countP_cons, hT]
    | cons b rest =>
      have hrec := ih (k + 1)
      simp [readAux, h, List.countP_cons, hT, hS]
      omega

/-- Helper: the read loop sleeps 10 ms exactly once per byte received, i.e.
exactly once per character of the returned text — never after an
empty-result read. -/
theorem readAux_sleeps (resp : Nat → List Nat) :
    ∀ (fuel k : Nat),
      (readAux resp k fuel).2.countP isSleep10 =
        (readAux resp k fuel).1.length := by
  intro fuel
  induction fuel with
  | zero => intro k; rfl
  | succ n ih =>
    intro k
    have hT : isSleep10 (.transfer readTransfer) = false := rfl
    have hS : isSleep10 (.sleep 10) = true := rfl
    cases h : resp k with
    | nil => simp [readAux, h, List.countP_cons, hT]
    | cons b rest =>
      have hrec := ih (k + 1)
      simp [readAux, h, List.countP_cons, hT, hS, String.length_append]
      omega

/-- Helper: if the device returns bytes for the first j reads (offsets k to
k+j-1) and an empty result at offset k+j, with j < fuel, then the read loop
returns exactly those j bytes as characters and issues exactly j+1 read
transfers. -/
theorem readAux_first_empty (resp : Nat → List Nat) :
    ∀ (j fuel k : Nat), j < fuel → resp (k + j) = [] →
      (∀ i, i < j → resp (k + i) ≠ []) →
      (readAux resp k fuel).1.data =
        ((List.range j).map fun i => Char.ofNat ((resp (k + i)).headD 0)) ∧
      (readAux resp k fuel).2.countP isClassRead = j + 1 := by
  intro j
  induction j with
  | zero =>
    intro fuel k hfuel hempty _
    cases fuel with
    | zero => omega
    | succ n =>
      have hk : resp k = [] := by simpa using hempty
      constructor
      · simp [readAux, hk]
      · simp [readAux, hk, List.countP_cons]
        rfl
  | succ j ih =>
    intro fuel k hfuel hempty hne
    cases fuel with
    | zero => omega
    | succ n =>
      have h0 : resp k ≠ [] := by
        have := hne 0 (Nat.succ_pos j)
        simpa using this
      cases hk : resp k with
      | nil => exact absurd hk h0
      | cons b rest =>
        have hempty' : resp ((k + 1) + j) = [] := by
          have harith : (k + 1) + j = k + (j + 1) := by omega
          rw [harith]
          exact hempty
        have hne' : ∀ i, i < j → resp ((k + 1) + i) ≠ [] := by
          intro i hi
          have harith : (k + 1) + i = k + (i + 1) := by omega
          rw [harith]
          exact hne (i + 1) (by omega)
        have hrec := ih n (k + 1) (by omega) hempty' hne'
        have hT : isClassRead (.transfer readTransfer) = true := rfl
        have hS : isClassRead (.sleep 10) = false := rfl
        constructor
        · simp [readAux, hk, Char.toString, hrec.1, List.range_succ_eq_map,
            List.map_map, Function.comp]
          intro a _
          have harith : k + (a + 1) = (k + 1) + a := by omega
          rw [harith]
        · simp [readAux, hk, List.countP_cons, hT, hS, hrec.2]

/-- C7: on a bound session, `read` with maximum count N issues at most N
read transfers; the 10 ms inter-read delay occurs exactly once per byte
received (so only after a read that returned a byte); if the device answers
the first j reads with bytes and the j-th read (j < N) with an empty
result, `read` stops there — exactly j+1 read transfers — and returns the
concatenation of those j bytes as characters; in particular for a device
returning "ab" then empty, the result is exactly "ab" after exactly 3 read
transfers, with the two delays interleaved after the two successful reads. -/
theorem C7_read_available (d : DeviceHandle) (resp : Nat → List Nat) (N : Nat) :
    ((read { _device := some d } resp N).2.countP isClassRead ≤ N) ∧
    ((read { _device := some d } resp N).2.countP isSleep10 =
      (((read { _device := some d } resp N).1.toOption.getD "")).length) ∧
    (∀ j : Nat, j < N → resp j = [] → (∀ i, i < j → resp i ≠ []) →
      (read { _device := some d } resp N).1 =
        .ok ⟨(List.range j).map fun i => Char.ofNat ((resp i).headD 0)⟩ ∧
      (read { _device := some d } resp N).2.countP isClassRead = j + 1) ∧
    read { _device := some d } respAB 50 =
      (.ok "ab",
        [.transfer readTransfer, .sleep 10, .transfer readTransfer, .sleep 10,
         .transfer readTransfer]) := by
  refine ⟨?_, ?_, ?_, ?_⟩
  · cases N with
    | zero => simp [read]
    | succ n => simpa [read] using readAux_reads_le resp (n + 1) 0
  · cases N with
    | zero => rfl
    | succ n => simpa [read] using readAux_sleeps resp (n + 1) 0
  · intro j hj hempty hne
    cases N with
    | zero => omega
    | succ n =>
      have hempty' : resp (0 + j) = [] := by simpa using hempty
      have hne' : ∀ i, i < j → resp (0 + i) ≠ [] := by
        intro i hi
        simpa using hne i hi
      have h := readAux_first_empty resp j (n + 1) 0 hj hempty' hne'
      constructor
      · simp only [read]
        exact congrArg Except.ok (String.ext (by simpa using h.1))
      · simpa [read] using h.2
  · rfl

/-- C7 witness: the stop-at-first-empty clause instantiated at the "ab"
device and j = 2 inside maxCount 50. -/
theorem C7_read_available_witness :
    (read { _device := some { id := 0 } } respAB 50).1 =
      .ok ⟨(List.range 2).map fun i => Char.ofNat ((respAB i).headD 0)⟩ ∧
    (read { _device := some { id := 0 } } respAB 50).2.countP isClassRead =
      2 + 1 :=
  (C7_read_available { id := 0 } respAB 50).2.2.1 2 (by decide) (by decide)
    (by decide)

end PcWatchdogPulser
